import Mathlib

set_option maxRecDepth 100000

/-!
Verification of the deepfake-voice detection service (`app/app.py`,
`app/src/deepfake.py`) against its natural-language specification.

The Python code is shallowly embedded: pure helpers become Lean functions;
the module-level randomness (`random.choice`, `random.uniform`) is passed in
explicitly as an `Rng` record of the draws one call makes; external
collaborators (the TensorFlow model, `librosa`, the filesystem) are passed in
as explicit outcome parameters.  Python floats are modelled as exact
rationals; `round(x, 2)` is modelled as rounding to an exact hundredth with
round-half-to-even, Python's documented rounding mode.
-/

namespace DeepfakeApp

/-! ### Bytes, UTF-8 and MD5

`get_deterministic_response` computes
`int(hashlib.md5(audio_data[:100].encode()).hexdigest(), 16)`.
We embed MD5 (RFC 1321) over `ℕ` with explicit `% 2^32` wrap-around, UTF-8
encoding of the string (Python's `str.encode()` default), and the big-endian
reading of the hex digest that `int(•, 16)` performs. -/

/-- Wrap-around modulus for 32-bit words. -/
def M32 : ℕ := 4294967296

/-- Bitwise complement on 32 bits (operand assumed `< 2^32`). -/
def not32 (x : ℕ) : ℕ := x ^^^ (M32 - 1)

/-- Left rotation on 32 bits (operand assumed `< 2^32`, `0 < n < 32`). -/
def rotl32 (x n : ℕ) : ℕ := ((x <<< n) % M32) ||| (x >>> (32 - n))

/-- Write `x` as `n` little-endian bytes. -/
def toLEBytes (n x : ℕ) : List ℕ := (List.range n).map fun i => (x >>> (8 * i)) % 256

/-- Read a little-endian byte list as a number. -/
def fromLEBytes (bs : List ℕ) : ℕ := bs.foldr (fun b acc => b + 256 * acc) 0

/-- UTF-8 encoding of one character (Python `str.encode()` is UTF-8). -/
def utf8Char (c : Char) : List ℕ :=
  let n := c.toNat
  if n < 128 then [n]
  else if n < 2048 then [192 + n / 64, 128 + n % 64]
  else if n < 65536 then [224 + n / 4096, 128 + (n / 64) % 64, 128 + n % 64]
  else [240 + n / 262144, 128 + (n / 4096) % 64, 128 + (n / 64) % 64, 128 + n % 64]

/-- UTF-8 encoding of a string as a byte list (`str.encode()`). -/
def utf8Encode (s : String) : List ℕ := s.data.foldr (fun c acc => utf8Char c ++ acc) []

/-- The 64 MD5 sine-derived constants `⌊2^32·|sin(i+1)|⌋`. -/
def md5K : List ℕ :=
  [3614090360, 3905402710, 606105819, 3250441966, 4118548399, 1200080426,
   2821735955, 4249261313, 1770035416, 2336552879, 4294925233, 2304563134,
   1804603682, 4254626195, 2792965006, 1236535329, 4129170786, 3225465664,
   643717713, 3921069994, 3593408605, 38016083, 3634488961, 3889429448,
   568446438, 3275163606, 4107603335, 1163531501, 2850285829, 4243563512,
   1735328473, 2368359562, 4294588738, 2272392833, 1839030562, 4259657740,
   2763975236, 1272893353, 4139469664, 3200236656, 681279174, 3936430074,
   3572445317, 76029189, 3654602809, 3873151461, 530742520, 3299628645,
   4096336452, 1126891415, 2878612391, 4237533241, 1700485571, 2399980690,
   4293915773, 2240044497, 1873313359, 4264355552, 2734768916, 1309151649,
   4149444226, 3174756917, 718787259, 3951481745]

/-- The 64 MD5 per-round left-rotation amounts. -/
def md5S : List ℕ :=
  [7, 12, 17, 22, 7, 12, 17, 22, 7, 12, 17, 22, 7, 12, 17, 22,
   5, 9, 14, 20, 5, 9, 14, 20, 5, 9, 14, 20, 5, 9, 14, 20,
   4, 11, 16, 23, 4, 11, 16, 23, 4, 11, 16, 23, 4, 11, 16, 23,
   6, 10, 15, 21, 6, 10, 15, 21, 6, 10, 15, 21, 6, 10, 15, 21]

/-- MD5 padding: `0x80`, zeros to 56 mod 64, then the bit length as 8
little-endian bytes. -/
def md5Pad (msg : List ℕ) : List ℕ :=
  let L := msg.length
  msg ++ [128] ++ List.replicate ((119 - L % 64) % 64) 0
      ++ toLEBytes 8 ((8 * L) % 2 ^ 64)

/-- Split a byte list into 64-byte chunks (structural recursion on a fuel
bound so the definition reduces in the kernel; `fuel = length` always
suffices since every step consumes at least one byte). -/
def chunks64Fuel : ℕ → List ℕ → List (List ℕ)
  | _, [] => []
  | 0, _ :: _ => []
  | fuel + 1, a :: rest => ((a :: rest).take 64) :: chunks64Fuel fuel ((a :: rest).drop 64)

/-- Split a byte list into 64-byte chunks. -/
def chunks64 (l : List ℕ) : List (List ℕ) := chunks64Fuel l.length l

/-- One of the 64 MD5 mixing steps on state `(a,b,c,d)`. -/
def md5Step (mWords : List ℕ) (st : ℕ × ℕ × ℕ × ℕ) (i : ℕ) : ℕ × ℕ × ℕ × ℕ :=
  let (a, b, c, d) := st
  let fg : ℕ × ℕ :=
    if i < 16 then ((b &&& c) ||| (not32 b &&& d), i)
    else if i < 32 then ((d &&& b) ||| (not32 d &&& c), (5 * i + 1) % 16)
    else if i < 48 then (b ^^^ c ^^^ d, (3 * i + 5) % 16)
    else (c ^^^ (b ||| not32 d), (7 * i) % 16)
  let tmp := (fg.1 + a + md5K.getD i 0 + mWords.getD fg.2 0) % M32
  (d, (b + rotl32 tmp (md5S.getD i 0)) % M32, b, c)

/-- Process one 64-byte chunk. -/
def md5Chunk (st : ℕ × ℕ × ℕ × ℕ) (chunk : List ℕ) : ℕ × ℕ × ℕ × ℕ :=
  let mWords := (List.range 16).map fun j => fromLEBytes ((chunk.drop (4 * j)).take 4)
  let r := (List.range 64).foldl (md5Step mWords) st
  ((st.1 + r.1) % M32, (st.2.1 + r.2.1) % M32,
   (st.2.2.1 + r.2.2.1) % M32, (st.2.2.2 + r.2.2.2) % M32)

/-- MD5 digest of a byte list, as its 16 bytes. -/
def md5Digest (msg : List ℕ) : List ℕ :=
  let r := (chunks64 (md5Pad msg)).foldl md5Chunk
    (1732584193, 4023233417, 2562383102, 271733878)
  toLEBytes 4 r.1 ++ toLEBytes 4 r.2.1 ++ toLEBytes 4 r.2.2.1 ++ toLEBytes 4 r.2.2.2

/-- The value `int(hashlib.md5(bs).hexdigest(), 16)`: the digest's hex string
read as a big-endian number. -/
def md5Int (msg : List ℕ) : ℕ := md5Digest msg |>.foldl (fun acc b => acc * 256 + b) 0

/-! ### Rounding

Final confidences go through Python's `round(x, 2)`.  We model the value as an
exact rational and the rounding as round-half-to-even on hundredths. -/

/-- Round a rational to the nearest integer, ties to even (Python `round`). -/
def roundHalfEven (q : ℚ) : ℤ :=
  if q - ⌊q⌋ < 1 / 2 then ⌊q⌋
  else if (1 : ℚ) / 2 < q - ⌊q⌋ then ⌊q⌋ + 1
  else if ⌊q⌋ % 2 = 0 then ⌊q⌋ else ⌊q⌋ + 1

/-- Python `round(x, 2)`: round to the nearest hundredth. -/
def round2 (q : ℚ) : ℚ := (roundHalfEven (q * 100) : ℚ) / 100

/-! ### Data model -/

/-- The response shape every handler returns:
`{classification, confidence, explanation}`. -/
structure ClassificationResult where
  classification : String
  confidence : ℚ
  explanation : String
deriving DecidableEq

/-- A JSON value, the possible results of `await request.json()`. -/
inductive Json where
  | null : Json
  | bool (b : Bool) : Json
  | num (q : ℚ) : Json
  | str (s : String) : Json
  | arr (elems : List Json) : Json
  | obj (entries : List (String × Json)) : Json

/-- Python `dict.get(k, dflt)` on a JSON object.  JSON parsing keeps the last
occurrence of a duplicated key, hence the reversed search. -/
def dictGet (entries : List (String × Json)) (k : String) (dflt : Json) : Json :=
  match entries.reverse.find? (fun p => p.1 == k) with
  | some p => p.2
  | none => dflt

/-! ### The fallback classifiers (`app.py` lines 55–108) -/

/-- The five explanation strings of `get_deterministic_response`. -/
def detExplanations : List String :=
  ["Voice classified using acoustic embedding analysis",
   "Detection based on spectral pattern analysis",
   "Classification via neural acoustic fingerprinting",
   "Analysis completed using voice authenticity markers",
   "Voice pattern recognition completed successfully"]

/-- The hash `int(hashlib.md5(audio_data[:100].encode()).hexdigest(), 16)`. -/
def hashVal (audio_data : String) : ℕ :=
  md5Int (utf8Encode (String.mk (audio_data.data.take 100)))

/-- Source `get_deterministic_response` (`app.py` 55–85): hash-derived label,
confidence and explanation. -/
def get_deterministic_response (audio_data : String) : ClassificationResult :=
  let hash_val := hashVal audio_data
  let cc : String × ℚ :=
    if hash_val % 10 < 6 then
      ("AI-generated", 75 / 100 + ((hash_val % 17 : ℕ) : ℚ) / 100)
    else
      ("Human", 70 / 100 + ((hash_val % 18 : ℕ) : ℚ) / 100)
  { classification := cc.1
    confidence := round2 cc.2
    explanation := detExplanations.getD (hash_val % detExplanations.length) "" }

/-- The three-element list `random.choice` draws the quick label from
(two "AI-generated" entries encode the 2/3 bias of the source). -/
def quickClassifications : List String := ["AI-generated", "AI-generated", "Human"]

/-- The four explanation strings of `get_quick_response`. -/
def quickExplanations : List String :=
  ["Voice classified using acoustic embedding analysis",
   "Detection based on spectral pattern analysis",
   "Classification via neural acoustic fingerprinting",
   "Analysis completed using voice authenticity markers"]

/-- The random draws one call of `get_quick_response` makes, passed
explicitly: the `random.choice` index over the three labels, the
`random.random()` draw in `[0,1)` behind `random.uniform`, and the
`random.choice` index over the four explanations. -/
structure Rng where
  choiceIdx : Fin 3
  u : ℚ
  uNonneg : 0 ≤ u
  uLtOne : u < 1
  explIdx : Fin 4

/-- Python `random.uniform(a, b) = a + (b - a) * random.random()`. -/
def uniformDraw (u a b : ℚ) : ℚ := a + (b - a) * u

/-- Source `get_quick_response` (`app.py` 87–108) with its random draws explicit. -/
def get_quick_response (g : Rng) : ClassificationResult :=
  let classification := quickClassifications.getD g.choiceIdx.val ""
  let confidence :=
    if classification = "AI-generated" then round2 (uniformDraw g.u (75 / 100) (91 / 100))
    else round2 (uniformDraw g.u (70 / 100) (87 / 100))
  { classification := classification
    confidence := confidence
    explanation := quickExplanations.getD g.explIdx.val "" }

/-! ### The `/detect` route (`app.py` 183–230)

`detect_base64` parses the body (`none` models a parse failure or timeout),
reads `audio_base64` with default `""`, and routes: any body that is not a
JSON object, and any non-string `audio_base64`, ends in `get_quick_response`
(in the source via the final `except` safety net: `.get` on a non-dict raises
`AttributeError`, `len` / slicing / `.encode()` on non-strings raise); a
string shorter than 10 characters fails the quick validation; otherwise the
deterministic response is returned.  `audio_format` and `language` are read
but only logged, and the route never reads `model_loaded` — it is passed here
only to state that the response does not depend on it. -/
def detect_base64 (body : Option Json) (modelLoaded : Bool) (g : Rng) :
    ClassificationResult :=
  match body with
  | none => get_quick_response g
  | some (Json.obj entries) =>
    match dictGet entries "audio_base64" (Json.str "") with
    | Json.str s =>
      if s.length < 10 then get_quick_response g
      else get_deterministic_response s
    | _ => get_quick_response g
  | some _ => get_quick_response g

/-! ### Base64 decoding (`base64.b64decode(clean_b64, validate=True)`)

Standard-alphabet base64: the input length must be a multiple of four, every
character must be from the alphabet, and `=` padding may appear only as the
final one or two characters.  Any violation raises `binascii.Error` in the
source, modelled as `none`. -/

/-- Value of one base64 alphabet character. -/
def b64Val (c : Char) : Option ℕ :=
  if 'A' ≤ c ∧ c ≤ 'Z' then some (c.toNat - 65)
  else if 'a' ≤ c ∧ c ≤ 'z' then some (c.toNat - 71)
  else if '0' ≤ c ∧ c ≤ '9' then some (c.toNat + 4)
  else if c = '+' then some 62
  else if c = '/' then some 63
  else none

/-- Decode base64 four characters at a time; the last quad may carry `=`
padding (one or two `=`, only at the very end). -/
def b64DecodeGroups : List Char → Option (List ℕ)
  | [] => some []
  | c1 :: c2 :: c3 :: c4 :: rest =>
    if c4 = '=' then
      if c3 = '=' then
        if rest = [] then
          match b64Val c1, b64Val c2 with
          | some v1, some v2 => some [v1 * 4 + v2 / 16]
          | _, _ => none
        else none
      else
        if rest = [] then
          match b64Val c1, b64Val c2, b64Val c3 with
          | some v1, some v2, some v3 =>
            some [v1 * 4 + v2 / 16, v2 % 16 * 16 + v3 / 4]
          | _, _, _ => none
        else none
    else
      match b64Val c1, b64Val c2, b64Val c3, b64Val c4 with
      | some v1, some v2, some v3, some v4 =>
        (b64DecodeGroups rest).map fun bs =>
          (v1 * 4 + v2 / 16) :: (v2 % 16 * 16 + v3 / 4) :: (v3 % 4 * 64 + v4) :: bs
      | _, _, _, _ => none
  | _ => none

/-- Python `base64.b64decode(s, validate=True)`: the decoded bytes, or `none` on
invalid input. -/
def b64decode (s : String) : Option (List ℕ) := b64DecodeGroups s.data

/-- The cleanup `audio_base64.replace("\n", "").replace("\r", "").replace(" ", "")`. -/
def cleanB64 (s : String) : String :=
  String.mk (s.data.filter fun c => !(c = '\n' || c = '\r' || c = ' '))

/-! ### The `/detect-with-model` route (`app.py` 234–306)

Besides the body and the random draws, the call's interactions with the
process state and the outside world are explicit parameters:
`modelLoaded` is the startup flag; `writeOk` says whether writing the scratch
file under `/tmp` succeeded (`except: return get_quick_response()` in the
source); `modelOutcome` is what `asyncio.wait_for(asyncio.to_thread(
infa_deepfake, temp_file), timeout=8.0)` produced — `some (status, message)`
when the call returned, `none` when it timed out or raised (the bare
`except: pass` path).  As in the source, any body that is not a JSON object
or whose `audio_base64` is not a string ends in the quick response through
the outer safety net. -/
def detect_with_model_attempt (body : Option Json) (g : Rng) (modelLoaded : Bool)
    (writeOk : Bool) (modelOutcome : Option (ℕ × String)) : ClassificationResult :=
  match body with
  | none => get_quick_response g
  | some (Json.obj entries) =>
    match dictGet entries "audio_base64" (Json.str "") with
    | Json.str s =>
      if s.length < 10 then get_quick_response g
      else
        match b64decode (cleanB64 s) with
        | none => get_quick_response g
        | some audio_bytes =>
          if audio_bytes.length > 3000000 then get_quick_response g
          else if !modelLoaded then get_quick_response g
          else if !writeOk then get_quick_response g
          else
            match modelOutcome with
            | none => get_quick_response g
            | some (status, message) =>
              if status ≠ 0 then
                { classification := if message = "REAL" then "Human" else "AI-generated"
                  confidence := 85 / 100
                  explanation := "Language-agnostic deepfake voice detection" }
              else get_quick_response g
    | _ => get_quick_response g
  | some _ => get_quick_response g

/-- The `/deepfake` upload route (`app.py` 134–179): quick response when the
model is not loaded; otherwise write the upload to a temp dir (`writeOk`
false models a raised write error, absorbed by the outer `except`), try the
model under a 10-second budget (`modelOutcome` as in
`detect_with_model_attempt`), map a nonzero status through the label table,
and fall back to the quick response otherwise. -/
def deepfake_file (modelLoaded writeOk : Bool) (modelOutcome : Option (ℕ × String))
    (g : Rng) : ClassificationResult :=
  if !modelLoaded then get_quick_response g
  else if !writeOk then get_quick_response g
  else
    match modelOutcome with
    | none => get_quick_response g
    | some (status, message) =>
      if status ≠ 0 then
        { classification := if message = "REAL" then "Human" else "AI-generated"
          confidence := 85 / 100
          explanation := "Prediction based on YAMNet acoustic embeddings" }
      else get_quick_response g

/-! ### The classifier wrapper (`app/src/deepfake.py`)

External collaborators are abstracted as outcome parameters: an external call
either returns a value or raises. -/

/-- Outcome of calling an external collaborator. -/
inductive ExtOutcome (α : Type) where
  | ok (a : α) : ExtOutcome α
  | raise (msg : String) : ExtOutcome α

/-- Source `load_wav_16k_mono` (`deepfake.py` 14–23): returns the sample, or `None`
when `librosa.load` raised (the exception is swallowed). -/
def load_wav_16k_mono (librosaLoad : ExtOutcome (List ℚ)) : Option (List ℚ) :=
  match librosaLoad with
  | ExtOutcome.ok sound_sample => some sound_sample
  | ExtOutcome.raise _ => none

/-- Model of `tf.math.argmax`: index of the first maximal entry (only called on
nonempty lists below). -/
def tfArgmax (l : List ℚ) : ℕ :=
  (List.range l.length).foldl
    (fun best i => if l.getD best 0 < l.getD i 0 then i else best) 0

/-- The two-way label space of the model. -/
def myClasses : List String := ["FAKE", "REAL"]

/-- Source `infa_deepfake` (`deepfake.py` 27–57).  `librosaLoad` is the outcome of
`librosa.load`; `infer` is the outcome of the TensorFlow signature call on
the loaded sample.  Everything runs inside `try`: a `None` sample makes
`tf.convert_to_tensor` raise, an empty prediction makes `argmax` raise, an
out-of-range class index raises `IndexError`, and every raise is caught and
returned as `(0, e)`; success returns `(1, label)`.  (In the source the
second component of a failure is the exception object; it is modelled as its
message string — callers only compare it against `"REAL"` after checking the
status.) -/
def infa_deepfake (librosaLoad : ExtOutcome (List ℚ))
    (infer : List ℚ → ExtOutcome (List ℚ)) : ℕ × String :=
  match load_wav_16k_mono librosaLoad with
  | none => (0, "ValueError")
  | some testing_wav_data =>
    match infer testing_wav_data with
    | ExtOutcome.raise e => (0, e)
    | ExtOutcome.ok predictions =>
      match predictions with
      | [] => (0, "InvalidArgumentError")
      | _ :: _ =>
        match myClasses.get? (tfArgmax predictions) with
        | none => (0, "IndexError")
        | some human_bot => (1, human_bot)

/-! ### Concrete inputs for witnesses and counterexamples -/

/-- Draws picking the first entry of every pool (`random.random() = 0`). -/
def rng0 : Rng :=
  { choiceIdx := ⟨0, by norm_num⟩, u := 0, uNonneg := le_refl 0,
    uLtOne := zero_lt_one, explIdx := ⟨0, by norm_num⟩ }

/-- Draws picking the third label entry (`"Human"`). -/
def rng2 : Rng :=
  { choiceIdx := ⟨2, by norm_num⟩, u := 0, uNonneg := le_refl 0,
    uLtOne := zero_lt_one, explIdx := ⟨0, by norm_num⟩ }

/-- A valid base64 payload decoding to exactly 3,000,001 bytes
(1,000,000 quads of `A` followed by a two-padding quad). -/
def bigB64Reject : String :=
  String.mk (List.replicate 4000000 'A' ++ ['A', 'A', '=', '='])

/-- Its decoded bytes. -/
def bigBytesReject : List ℕ := List.replicate 3000000 0 ++ [0]

/-- A valid base64 payload decoding to exactly 2,999,999 bytes
(999,999 quads of `A` followed by a one-padding quad). -/
def bigB64Accept : String :=
  String.mk (List.replicate 3999996 'A' ++ ['A', 'A', 'A', '='])

/-- Its decoded bytes. -/
def bigBytesAccept : List ℕ := List.replicate 2999997 0 ++ [0, 0]

/-! ### Structural validity -/

/-- A structurally valid `ClassificationResult`: the classification is one of
the three spec labels and the confidence lies in `[0,1]`.  (The explanation is
a string by the type of the field.) -/
def validResult (r : ClassificationResult) : Prop :=
  (r.classification = "Human" ∨ r.classification = "AI-generated" ∨
      r.classification = "Error") ∧
    0 ≤ r.confidence ∧ r.confidence ≤ 1

/-! ### Rounding lemmas -/

lemma roundHalfEven_intCast (z : ℤ) : roundHalfEven (z : ℚ) = z := by
  unfold roundHalfEven
  rw [Int.floor_intCast]
  norm_num

lemma roundHalfEven_natCast (n : ℕ) : roundHalfEven (n : ℚ) = n := by
  have h := roundHalfEven_intCast (n : ℤ)
  simpa using h

lemma roundHalfEven_eq_floor_or (q : ℚ) :
    roundHalfEven q = ⌊q⌋ ∨ roundHalfEven q = ⌊q⌋ + 1 := by
  unfold roundHalfEven
  split_ifs <;> simp

lemma roundHalfEven_bounds {a b : ℤ} {q : ℚ} (ha : (a : ℚ) ≤ q) (hb : q < (b : ℚ)) :
    a ≤ roundHalfEven q ∧ roundHalfEven q ≤ b := by
  have hfa : a ≤ ⌊q⌋ := Int.le_floor.mpr ha
  have hfb : ⌊q⌋ < b := Int.floor_lt.mpr hb
  rcases roundHalfEven_eq_floor_or q with h | h <;> rw [h] <;> omega

/-- Rounding `round(x, 2)` is the identity on exact hundredths, and in particular on
every confidence the deterministic fallback computes. -/
lemma round2_natCast_div (n : ℕ) : round2 ((n : ℚ) / 100) = (n : ℚ) / 100 := by
  unfold round2
  rw [div_mul_cancel₀ _ (by norm_num : (100 : ℚ) ≠ 0), roundHalfEven_natCast]
  push_cast
  ring

lemma round2_uniform_bounds {u : ℚ} (h0 : 0 ≤ u) (h1 : u < 1) {a b : ℕ} (hab : a < b) :
    (a : ℚ) / 100 ≤ round2 (uniformDraw u ((a : ℚ) / 100) ((b : ℚ) / 100)) ∧
      round2 (uniformDraw u ((a : ℚ) / 100) ((b : ℚ) / 100)) ≤ (b : ℚ) / 100 := by
  have habQ : (a : ℚ) < (b : ℚ) := by exact_mod_cast hab
  have key : uniformDraw u ((a : ℚ) / 100) ((b : ℚ) / 100) * 100 = a + ((b : ℚ) - a) * u := by
    unfold uniformDraw; ring
  have hlow : (a : ℚ) ≤ uniformDraw u ((a : ℚ) / 100) ((b : ℚ) / 100) * 100 := by
    rw [key]
    have : 0 ≤ ((b : ℚ) - a) * u := mul_nonneg (by linarith) h0
    linarith
  have hhigh : uniformDraw u ((a : ℚ) / 100) ((b : ℚ) / 100) * 100 < (b : ℚ) := by
    rw [key]
    have : ((b : ℚ) - a) * u < ((b : ℚ) - a) * 1 :=
      mul_lt_mul_of_pos_left h1 (by linarith)
    linarith
  obtain ⟨l, r⟩ := roundHalfEven_bounds (a := (a : ℤ)) (b := (b : ℤ))
    (by push_cast; exact hlow) (by push_cast; exact hhigh)
  unfold round2
  refine ⟨?_, ?_⟩
  · gcongr
    exact_mod_cast l
  · gcongr
    exact_mod_cast r

/-! ### Validity of the two fallbacks -/

lemma quick_classification_cases (g : Rng) :
    (get_quick_response g).classification = "AI-generated" ∨
      (get_quick_response g).classification = "Human" := by
  obtain ⟨⟨v, hv⟩, u, h0, h1, e⟩ := g
  interval_cases v <;> simp [get_quick_response, quickClassifications]

lemma quick_valid (g : Rng) : validResult (get_quick_response g) := by
  have hc := quick_classification_cases g
  refine ⟨hc.elim (fun h => Or.inr (Or.inl h)) (fun h => Or.inl h), ?_⟩
  show 0 ≤ (get_quick_response g).confidence ∧ (get_quick_response g).confidence ≤ 1
  have hconf : (get_quick_response g).confidence =
      (if (get_quick_response g).classification = "AI-generated"
        then round2 (uniformDraw g.u (75 / 100) (91 / 100))
        else round2 (uniformDraw g.u (70 / 100) (87 / 100))) := by
    simp only [get_quick_response]
  rw [hconf]
  split_ifs
  · have := round2_uniform_bounds g.uNonneg g.uLtOne (a := 75) (b := 91) (by norm_num)
    push_cast at this
    constructor <;> linarith [this.1, this.2]
  · have := round2_uniform_bounds g.uNonneg g.uLtOne (a := 70) (b := 87) (by norm_num)
    push_cast at this
    constructor <;> linarith [this.1, this.2]

/-- Closed form of the deterministic response on the AI-generated branch. -/
lemma det_eq_ai (s : String) (hbr : hashVal s % 10 < 6) :
    get_deterministic_response s =
      { classification := "AI-generated"
        confidence := ((75 + hashVal s % 17 : ℕ) : ℚ) / 100
        explanation := detExplanations.getD (hashVal s % detExplanations.length) "" } := by
  simp only [get_deterministic_response, if_pos hbr]
  have hc : (75 : ℚ) / 100 + ((hashVal s % 17 : ℕ) : ℚ) / 100 =
      ((75 + hashVal s % 17 : ℕ) : ℚ) / 100 := by push_cast; ring
  rw [hc, round2_natCast_div]

/-- Closed form of the deterministic response on the Human branch. -/
lemma det_eq_human (s : String) (hbr : ¬ hashVal s % 10 < 6) :
    get_deterministic_response s =
      { classification := "Human"
        confidence := ((70 + hashVal s % 18 : ℕ) : ℚ) / 100
        explanation := detExplanations.getD (hashVal s % detExplanations.length) "" } := by
  simp only [get_deterministic_response, if_neg hbr]
  have hc : (70 : ℚ) / 100 + ((hashVal s % 18 : ℕ) : ℚ) / 100 =
      ((70 + hashVal s % 18 : ℕ) : ℚ) / 100 := by push_cast; ring
  rw [hc, round2_natCast_div]

lemma det_classification_cases (s : String) :
    (get_deterministic_response s).classification = "AI-generated" ∨
      (get_deterministic_response s).classification = "Human" := by
  by_cases hbr : hashVal s % 10 < 6
  · rw [det_eq_ai s hbr]; left; rfl
  · rw [det_eq_human s hbr]; right; rfl

lemma quick_ne_error (g : Rng) : (get_quick_response g).classification ≠ "Error" := by
  rcases quick_classification_cases g with h | h <;> rw [h] <;> decide

lemma det_ne_error (s : String) : (get_deterministic_response s).classification ≠ "Error" := by
  rcases det_classification_cases s with h | h <;> rw [h] <;> decide

lemma det_valid (s : String) : validResult (get_deterministic_response s) := by
  by_cases hbr : hashVal s % 10 < 6
  · rw [det_eq_ai s hbr]
    refine ⟨Or.inr (Or.inl rfl), ?_⟩
    have hk : hashVal s % 17 ≤ 16 := Nat.le_of_lt_succ (Nat.mod_lt _ (by norm_num))
    have hkQ : ((75 + hashVal s % 17 : ℕ) : ℚ) ≤ 91 := by exact_mod_cast by omega
    have hk0 : (0 : ℚ) ≤ ((75 + hashVal s % 17 : ℕ) : ℚ) := by positivity
    exact ⟨by positivity, by dsimp only; linarith⟩
  · rw [det_eq_human s hbr]
    refine ⟨Or.inl rfl, ?_⟩
    have hk : hashVal s % 18 ≤ 17 := Nat.le_of_lt_succ (Nat.mod_lt _ (by norm_num))
    have hkQ : ((70 + hashVal s % 18 : ℕ) : ℚ) ≤ 87 := by exact_mod_cast by omega
    have hk0 : (0 : ℚ) ≤ ((70 + hashVal s % 18 : ℕ) : ℚ) := by positivity
    exact ⟨by positivity, by dsimp only; linarith⟩

end DeepfakeApp

namespace DeepfakeApp

/-! ### Claims -/

/-- C1: For every request body sent to POST `/detect` (including malformed
JSON, non-dict JSON, empty, oversized, or adversarial bodies), the handler
returns a structurally valid `ClassificationResult` — classification in
{Human, AI-generated, Error}, confidence in `[0,1]`, explanation a string —
and never raises (every branch of the embedded handler, which is total by
construction because every exception path of the source is caught, produces
a result). -/
theorem detect_total_valid (body : Option Json) (modelLoaded : Bool) (g : Rng) :
    validResult (detect_base64 body modelLoaded g) := by
  unfold detect_base64
  repeat' split
  all_goals first | exact quick_valid g | exact det_valid _

/-- C2: The deterministic fallback is a pure function of its input: two calls
on equal inputs yield identical `(classification, confidence, explanation)`
triples.  (The embedding renders `get_deterministic_response` as a pure
function because the source reads no mutable state: the hash, bands and
explanation pool depend only on `audio_data`.) -/
theorem deterministic_fallback_pure (b₁ b₂ : String) (h : b₁ = b₂) :
    get_deterministic_response b₁ = get_deterministic_response b₂ := by
  rw [h]

theorem deterministic_fallback_pure_witness :
    get_deterministic_response "QUFBQUFBQUFB" = get_deterministic_response "QUFBQUFBQUFB" :=
  deterministic_fallback_pure "QUFBQUFBQUFB" "QUFBQUFBQUFB" rfl

/-- C3: For every POST `/detect` request whose JSON body parses to a dict
whose `audio_base64` is a string of length at least 10, the response equals
the deterministic fallback applied to that string, regardless of the
model-loaded flag and of the random draws — the real classifier is never
invoked on the `/detect` route (the embedded route has no model-outcome
input because the source route never calls `infa_deepfake`). -/
theorem detect_refines_deterministic (entries : List (String × Json)) (s : String)
    (modelLoaded : Bool) (g : Rng)
    (hs : dictGet entries "audio_base64" (Json.str "") = Json.str s)
    (hlen : 10 ≤ s.length) :
    detect_base64 (some (Json.obj entries)) modelLoaded g = get_deterministic_response s := by
  unfold detect_base64
  simp only [hs]
  rw [if_neg (by omega)]

theorem detect_refines_deterministic_witness :
    dictGet [("audio_base64", Json.str "QUFBQUFBQUFB")] "audio_base64" (Json.str "") =
        Json.str "QUFBQUFBQUFB" ∧
      10 ≤ ("QUFBQUFBQUFB" : String).length ∧
      detect_base64 (some (Json.obj [("audio_base64", Json.str "QUFBQUFBQUFB")])) true rng0 =
        get_deterministic_response "QUFBQUFBQUFB" :=
  ⟨rfl, by decide,
    detect_refines_deterministic [("audio_base64", Json.str "QUFBQUFBQUFB")]
      "QUFBQUFBQUFB" true rng0 rfl (by decide)⟩

/-- C4: For every input string, the deterministic fallback hashes the first
100 characters; if `hash % 10 < 6` the classification is AI-generated with
confidence in `[0.75, 0.91]`, otherwise Human with confidence in
`[0.70, 0.87]`; the explanation is the pool entry at index
`hash % (pool length)`. -/
theorem deterministic_fallback_spec (s : String) :
    hashVal s = md5Int (utf8Encode (String.mk (s.data.take 100))) ∧
    (hashVal s % 10 < 6 →
      (get_deterministic_response s).classification = "AI-generated" ∧
        75 / 100 ≤ (get_deterministic_response s).confidence ∧
        (get_deterministic_response s).confidence ≤ 91 / 100) ∧
    (¬ hashVal s % 10 < 6 →
      (get_deterministic_response s).classification = "Human" ∧
        70 / 100 ≤ (get_deterministic_response s).confidence ∧
        (get_deterministic_response s).confidence ≤ 87 / 100) ∧
    (get_deterministic_response s).explanation =
      detExplanations.getD (hashVal s % detExplanations.length) "" := by
  refine ⟨rfl, fun hbr => ?_, fun hbr => ?_, ?_⟩
  · rw [det_eq_ai s hbr]
    have hk : hashVal s % 17 < 17 := Nat.mod_lt _ (by norm_num)
    have h1 : (75 : ℚ) ≤ ((75 + hashVal s % 17 : ℕ) : ℚ) := by exact_mod_cast by omega
    have h2 : ((75 + hashVal s % 17 : ℕ) : ℚ) ≤ 91 := by exact_mod_cast by omega
    refine ⟨rfl, ?_, ?_⟩ <;> dsimp only <;> gcongr
  · rw [det_eq_human s hbr]
    have hk : hashVal s % 18 < 18 := Nat.mod_lt _ (by norm_num)
    have h1 : (70 : ℚ) ≤ ((70 + hashVal s % 18 : ℕ) : ℚ) := by exact_mod_cast by omega
    have h2 : ((70 + hashVal s % 18 : ℕ) : ℚ) ≤ 87 := by exact_mod_cast by omega
    refine ⟨rfl, ?_, ?_⟩ <;> dsimp only <;> gcongr
  · by_cases hbr : hashVal s % 10 < 6
    · rw [det_eq_ai s hbr]
    · rw [det_eq_human s hbr]

theorem deterministic_fallback_spec_witness :
    hashVal "QUFBQUFBQUFB" % 10 < 6 ∧
      (get_deterministic_response "QUFBQUFBQUFB").classification = "AI-generated" :=
  ⟨by decide, ((deterministic_fallback_spec "QUFBQUFBQUFB").2.1 (by decide)).1⟩

/-- C5 counterexample: on `/detect-with-model`, with a parsed and validated
request (`audio_base64 = "QUFBQUFBQUFB"`, decodes to 9 bytes), model loaded,
scratch file written, and the model attempt ending in failure (`none`), the
response is NOT the deterministic fallback on the input: with draws `rng2`
the route answers "Human" while the deterministic fallback on this input
answers "AI-generated". -/
theorem model_failure_not_deterministic_cex :
    detect_with_model_attempt
        (some (Json.obj [("audio_base64", Json.str "QUFBQUFBQUFB")])) rng2 true true none ≠
      get_deterministic_response "QUFBQUFBQUFB" := by
  decide

/-- C5 (amended): on the route that attempts real inference, when the request
has parsed and validated successfully and the model attempt ends in Timeout,
Unavailable, or Failure (including a returned status 0), the response is
produced by the quick/random fallback `get_quick_response` — not the
deterministic variant — so retries of the same payload are not guaranteed a
stable verdict. -/
theorem model_attempt_failure_quick_fallback (entries : List (String × Json))
    (s : String) (g : Rng) (modelLoaded writeOk : Bool)
    (modelOutcome : Option (ℕ × String)) (audio_bytes : List ℕ)
    (hs : dictGet entries "audio_base64" (Json.str "") = Json.str s)
    (hlen : 10 ≤ s.length)
    (hdec : b64decode (cleanB64 s) = some audio_bytes)
    (hsize : audio_bytes.length ≤ 3000000)
    (hfail : modelLoaded = false ∨ modelOutcome = none ∨ ∃ m, modelOutcome = some (0, m)) :
    detect_with_model_attempt (some (Json.obj entries)) g modelLoaded writeOk modelOutcome =
      get_quick_response g := by
  unfold detect_with_model_attempt
  simp only [hs, hdec]
  rw [if_neg (by omega : ¬ s.length < 10),
    if_neg (by omega : ¬ audio_bytes.length > 3000000)]
  rcases hfail with h | h | ⟨m, h⟩ <;> subst h
  · simp
  · cases modelLoaded
    · simp
    · cases writeOk <;> simp
  · cases modelLoaded
    · simp
    · cases writeOk <;> simp

theorem model_attempt_failure_quick_fallback_witness :
    dictGet [("audio_base64", Json.str "QUFBQUFBQUFB")] "audio_base64" (Json.str "") =
        Json.str "QUFBQUFBQUFB" ∧
      b64decode (cleanB64 "QUFBQUFBQUFB") = some [65, 65, 65, 65, 65, 65, 65, 65, 65] ∧
      detect_with_model_attempt
          (some (Json.obj [("audio_base64", Json.str "QUFBQUFBQUFB")])) rng0 true true none =
        get_quick_response rng0 :=
  ⟨rfl, by decide,
    model_attempt_failure_quick_fallback [("audio_base64", Json.str "QUFBQUFBQUFB")]
      "QUFBQUFBQUFB" rng0 true true none [65, 65, 65, 65, 65, 65, 65, 65, 65]
      rfl (by decide) (by decide) (by decide) (Or.inr (Or.inl rfl))⟩

/-- C6 counterexample: for the request
`{audio_base64: "QQ==", audio_format: "wav", language: "en"}` with the model
not loaded, `/detect` does NOT take the deterministic fallback path and two
identical calls need not agree: `"QQ=="` has length 4 < 10, so the quick
random fallback fires, and different random draws yield different
classifications. -/
theorem qq_input_not_stable_cex :
    (detect_base64
        (some (Json.obj [("audio_base64", Json.str "QQ=="), ("audio_format", Json.str "wav"),
          ("language", Json.str "en")])) false rng0).classification = "AI-generated" ∧
      (detect_base64
        (some (Json.obj [("audio_base64", Json.str "QQ=="), ("audio_format", Json.str "wav"),
          ("language", Json.str "en")])) false rng2).classification = "Human" := by
  decide

/-- C6 (amended): for `audio_base64 = "QQ=="` (length 4, below the 10-character
plausibility threshold), `/detect` takes the quick/random fallback path: the
response is exactly `get_quick_response` on the call's random draws, so two
identical calls agree only when their draws agree. -/
theorem qq_input_quick_path (modelLoaded : Bool) (g : Rng) :
    detect_base64
        (some (Json.obj [("audio_base64", Json.str "QQ=="), ("audio_format", Json.str "wav"),
          ("language", Json.str "en")])) modelLoaded g =
      get_quick_response g := rfl

/-- C7 counterexample: a request missing the audio payload (only `language`
and `audio_format` present) does NOT produce `classification = "Error"` with
an explanation listing the received keys — it produces the quick random
fallback, here classified "AI-generated". -/
theorem missing_payload_no_error_cex :
    detect_base64
        (some (Json.obj [("language", Json.str "en"), ("audio_format", Json.str "wav")]))
        false rng0 = get_quick_response rng0 ∧
      (detect_base64
        (some (Json.obj [("language", Json.str "en"), ("audio_format", Json.str "wav")]))
        false rng0).classification ≠ "Error" := by
  constructor
  · rfl
  · decide

/-- C7 (amended): `/detect` never returns `classification = "Error"` on any
body — missing `language` or `audio_format` are silently defaulted, and a
missing (or shorter-than-10) audio payload routes to the quick/random
fallback, whose label is always "Human" or "AI-generated". -/
theorem detect_never_error :
    (∀ (body : Option Json) (modelLoaded : Bool) (g : Rng),
        (detect_base64 body modelLoaded g).classification ≠ "Error") ∧
      ∀ (entries : List (String × Json)) (modelLoaded : Bool) (g : Rng),
        dictGet entries "audio_base64" (Json.str "") = Json.str "" →
          detect_base64 (some (Json.obj entries)) modelLoaded g = get_quick_response g := by
  constructor
  · intro body modelLoaded g
    unfold detect_base64
    repeat' split
    all_goals first | exact quick_ne_error g | exact det_ne_error _
  · intro entries modelLoaded g hs
    unfold detect_base64
    simp only [hs]
    rw [if_pos (by decide)]

theorem detect_never_error_witness :
    (detect_base64 none false rng0).classification ≠ "Error" ∧
      dictGet [("language", Json.str "en")] "audio_base64" (Json.str "") = Json.str "" ∧
      detect_base64 (some (Json.obj [("language", Json.str "en")])) false rng0 =
        get_quick_response rng0 :=
  ⟨detect_never_error.1 none false rng0, rfl,
    detect_never_error.2 [("language", Json.str "en")] false rng0 rfl⟩

/-! ### Decoding the large witness payloads -/

lemma filter_replicate_true {p : Char → Bool} {c : Char} (hc : p c = true) (n : ℕ) :
    List.filter p (List.replicate n c) = List.replicate n c := by
  induction n with
  | zero => rfl
  | succ n ih => rw [List.replicate_succ, List.filter_cons_of_pos hc, ih]

/-- Decoding one quad of `A` prepends three zero bytes. -/
lemma b64DecodeGroups_quadA (rest : List Char) :
    b64DecodeGroups ('A' :: 'A' :: 'A' :: 'A' :: rest) =
      (b64DecodeGroups rest).map fun bs => 0 :: 0 :: 0 :: bs := rfl

lemma b64DecodeGroups_replicateA (n : ℕ) (t : List Char) (bs : List ℕ)
    (ht : b64DecodeGroups t = some bs) :
    b64DecodeGroups (List.replicate (4 * n) 'A' ++ t) =
      some (List.replicate (3 * n) 0 ++ bs) := by
  induction n with
  | zero => simpa using ht
  | succ n ih =>
    have e4 : 4 * (n + 1) = 4 + 4 * n := by ring
    have e3 : 3 * (n + 1) = 3 + 3 * n := by ring
    rw [e4, e3, List.replicate_add, List.replicate_add, List.append_assoc, List.append_assoc]
    have hrep4 : (List.replicate 4 'A' : List Char) = ['A', 'A', 'A', 'A'] := rfl
    have hrep3 : (List.replicate 3 (0 : ℕ)) = [0, 0, 0] := rfl
    rw [hrep4, hrep3]
    simp only [List.cons_append, List.nil_append]
    rw [b64DecodeGroups_quadA, ih]
    rfl

lemma filter_wsFree {l : List Char} (hl : ∀ c ∈ l, c = 'A' ∨ c = '=') :
    (l.filter fun c => !(c = '\n' || c = '\r' || c = ' ')) = l := by
  induction l with
  | nil => rfl
  | cons c cs ih =>
    have hc : (!(c = '\n' || c = '\r' || c = ' ')) = true := by
      rcases hl c (List.mem_cons_self c cs) with h | h <;> subst h <;> decide
    rw [List.filter_cons, if_pos hc, ih fun x hx => hl x (List.mem_cons_of_mem c hx)]

lemma cleanB64_allA {l : List Char} (hl : ∀ c ∈ l, c = 'A' ∨ c = '=') :
    cleanB64 (String.mk l) = String.mk l :=
  congrArg String.mk (filter_wsFree hl)

lemma mem_bigB64Reject (c : Char) (hc : c ∈ List.replicate 4000000 'A' ++ ['A', 'A', '=', '=']) :
    c = 'A' ∨ c = '=' := by
  rcases List.mem_append.mp hc with h | h
  · exact Or.inl (List.eq_of_mem_replicate h)
  · simp only [List.mem_cons, List.not_mem_nil, or_false] at h
    rcases h with h | h | h | h <;> subst h <;> simp

lemma mem_bigB64Accept (c : Char) (hc : c ∈ List.replicate 3999996 'A' ++ ['A', 'A', 'A', '=']) :
    c = 'A' ∨ c = '=' := by
  rcases List.mem_append.mp hc with h | h
  · exact Or.inl (List.eq_of_mem_replicate h)
  · simp only [List.mem_cons, List.not_mem_nil, or_false] at h
    rcases h with h | h | h | h <;> subst h <;> simp

lemma b64decode_bigB64Reject : b64decode (cleanB64 bigB64Reject) = some bigBytesReject := by
  unfold bigB64Reject bigBytesReject
  rw [cleanB64_allA mem_bigB64Reject]
  show b64DecodeGroups (List.replicate 4000000 'A' ++ ['A', 'A', '=', '=']) = _
  have h1 : (4000000 : ℕ) = 4 * 1000000 := by norm_num
  have h2 : (3000000 : ℕ) = 3 * 1000000 := by norm_num
  rw [h1, h2]
  exact b64DecodeGroups_replicateA 1000000 ['A', 'A', '=', '='] [0] (by decide)

lemma b64decode_bigB64Accept : b64decode (cleanB64 bigB64Accept) = some bigBytesAccept := by
  unfold bigB64Accept bigBytesAccept
  rw [cleanB64_allA mem_bigB64Accept]
  show b64DecodeGroups (List.replicate 3999996 'A' ++ ['A', 'A', 'A', '=']) = _
  have h1 : (3999996 : ℕ) = 4 * 999999 := by norm_num
  have h2 : (2999997 : ℕ) = 3 * 999999 := by norm_num
  rw [h1, h2]
  exact b64DecodeGroups_replicateA 999999 ['A', 'A', 'A', '='] [0, 0] (by decide)

lemma bigB64Reject_length : bigB64Reject.length = 4000004 := by
  unfold bigB64Reject
  rw [String.length_mk, List.length_append, List.length_replicate]
  rfl

lemma bigB64Accept_length : bigB64Accept.length = 4000000 := by
  unfold bigB64Accept
  rw [String.length_mk, List.length_append, List.length_replicate]
  rfl

lemma bigBytesReject_length : bigBytesReject.length = 3000001 := by
  unfold bigBytesReject
  rw [List.length_append, List.length_replicate]
  rfl

lemma bigBytesAccept_length : bigBytesAccept.length = 2999999 := by
  unfold bigBytesAccept
  rw [List.length_append, List.length_replicate]
  rfl

/-- C8: on the inference route, a payload whose decoded size is 3,000,001
bytes is rejected — routed to the quick fallback before any inference
attempt, whatever the model flag, the scratch-write outcome or the model
outcome — while a payload whose decoded size is 2,999,999 bytes passes the
size check and proceeds: with the model loaded the response is computed from
the model outcome. -/
theorem size_check_boundaries :
    (∀ (entries : List (String × Json)) (s : String) (g : Rng)
        (modelLoaded writeOk : Bool) (modelOutcome : Option (ℕ × String))
        (audio_bytes : List ℕ),
        dictGet entries "audio_base64" (Json.str "") = Json.str s →
          10 ≤ s.length →
          b64decode (cleanB64 s) = some audio_bytes →
          audio_bytes.length = 3000001 →
          detect_with_model_attempt (some (Json.obj entries)) g modelLoaded writeOk
              modelOutcome =
            get_quick_response g) ∧
      ∀ (entries : List (String × Json)) (s : String) (g : Rng) (msg : String)
        (audio_bytes : List ℕ),
        dictGet entries "audio_base64" (Json.str "") = Json.str s →
          10 ≤ s.length →
          b64decode (cleanB64 s) = some audio_bytes →
          audio_bytes.length = 2999999 →
          detect_with_model_attempt (some (Json.obj entries)) g true true (some (1, msg)) =
            { classification := if msg = "REAL" then "Human" else "AI-generated"
              confidence := 85 / 100
              explanation := "Language-agnostic deepfake voice detection" } := by
  constructor
  · intro entries s g modelLoaded writeOk modelOutcome audio_bytes hs hlen hdec hsize
    unfold detect_with_model_attempt
    simp only [hs, hdec]
    rw [if_neg (by omega : ¬ s.length < 10),
      if_pos (by omega : audio_bytes.length > 3000000)]
  · intro entries s g msg audio_bytes hs hlen hdec hsize
    unfold detect_with_model_attempt
    simp only [hs, hdec]
    rw [if_neg (by omega : ¬ s.length < 10),
      if_neg (by omega : ¬ audio_bytes.length > 3000000)]
    simp

theorem size_check_boundaries_witness :
    b64decode (cleanB64 bigB64Reject) = some bigBytesReject ∧
      bigBytesReject.length = 3000001 ∧
      detect_with_model_attempt (some (Json.obj [("audio_base64", Json.str bigB64Reject)]))
          rng0 true true (some (1, "REAL")) =
        get_quick_response rng0 ∧
      b64decode (cleanB64 bigB64Accept) = some bigBytesAccept ∧
      bigBytesAccept.length = 2999999 ∧
      detect_with_model_attempt (some (Json.obj [("audio_base64", Json.str bigB64Accept)]))
          rng0 true true (some (1, "REAL")) =
        { classification := "Human", confidence := 85 / 100
          explanation := "Language-agnostic deepfake voice detection" } := by
  refine ⟨b64decode_bigB64Reject, bigBytesReject_length, ?_, b64decode_bigB64Accept,
    bigBytesAccept_length, ?_⟩
  · exact size_check_boundaries.1 [("audio_base64", Json.str bigB64Reject)] bigB64Reject
      rng0 true true (some (1, "REAL")) bigBytesReject rfl
      (by rw [bigB64Reject_length]; norm_num) b64decode_bigB64Reject bigBytesReject_length
  · have h := size_check_boundaries.2 [("audio_base64", Json.str bigB64Accept)] bigB64Accept
      rng0 "REAL" bigBytesAccept rfl
      (by rw [bigB64Accept_length]; norm_num) b64decode_bigB64Accept bigBytesAccept_length
    simpa using h

/-- C9: when the external classifier succeeds (returns a nonzero status), the
inference route maps the classifier label REAL to Human and any other label
to AI-generated, and the returned confidence is the fixed constant `0.85`,
independent of the input; moreover a successful `infa_deepfake` call only
ever reports a label from the two-way space `{FAKE, REAL}`. -/
theorem model_success_label_map :
    (∀ (entries : List (String × Json)) (s : String) (g : Rng) (status : ℕ)
        (msg : String) (audio_bytes : List ℕ),
        dictGet entries "audio_base64" (Json.str "") = Json.str s →
          10 ≤ s.length →
          b64decode (cleanB64 s) = some audio_bytes →
          audio_bytes.length ≤ 3000000 →
          status ≠ 0 →
          detect_with_model_attempt (some (Json.obj entries)) g true true
              (some (status, msg)) =
            { classification := if msg = "REAL" then "Human" else "AI-generated"
              confidence := 85 / 100
              explanation := "Language-agnostic deepfake voice detection" }) ∧
      ∀ (librosaLoad : ExtOutcome (List ℚ)) (infer : List ℚ → ExtOutcome (List ℚ))
        (m : String),
        infa_deepfake librosaLoad infer = (1, m) → m = "FAKE" ∨ m = "REAL" := by
  constructor
  · intro entries s g status msg audio_bytes hs hlen hdec hsize hst
    unfold detect_with_model_attempt
    simp only [hs, hdec]
    rw [if_neg (by omega : ¬ s.length < 10),
      if_neg (by omega : ¬ audio_bytes.length > 3000000)]
    simp [hst]
  · intro librosaLoad infer m h
    cases librosaLoad with
    | raise e => simp [infa_deepfake, load_wav_16k_mono] at h
    | ok sample =>
      simp only [infa_deepfake, load_wav_16k_mono] at h
      cases hinf : infer sample with
      | raise e => simp only [hinf] at h; simp at h
      | ok predictions =>
        simp only [hinf] at h
        cases predictions with
        | nil => simp at h
        | cons p ps =>
          cases hidx : myClasses.get? (tfArgmax (p :: ps)) with
          | none => simp only [hidx] at h; simp at h
          | some lbl =>
            simp only [hidx, Prod.mk.injEq] at h
            have hm : m ∈ myClasses := h.2 ▸ List.get?_mem hidx
            simpa [myClasses] using hm

theorem model_success_label_map_witness :
    b64decode (cleanB64 "QUFBQUFBQUFB") = some [65, 65, 65, 65, 65, 65, 65, 65, 65] ∧
      detect_with_model_attempt
          (some (Json.obj [("audio_base64", Json.str "QUFBQUFBQUFB")])) rng0 true true
          (some (1, "REAL")) =
        { classification := "Human", confidence := 85 / 100
          explanation := "Language-agnostic deepfake voice detection" } := by
  refine ⟨by decide, ?_⟩
  have h := model_success_label_map.1 [("audio_base64", Json.str "QUFBQUFBQUFB")]
    "QUFBQUFBQUFB" rng0 1 "REAL" [65, 65, 65, 65, 65, 65, 65, 65, 65]
    rfl (by decide) (by decide) (by decide) (by decide)
  simpa using h

/-- C10: the classifier wrapper `infa_deepfake` is total — for every outcome
of its external collaborators it returns a `(status, message)` pair with
status in `{0, 1}` (the embedding returns a value on every branch because
the source wraps the body in a catch-all `try`); any internal failure (a
raising `librosa.load`, i.e. an unreadable audio file, or a raising
inference call) yields status 0; and a caller receiving status 0 routes to
the quick fallback rather than surfacing an error. -/
theorem infa_deepfake_total (librosaLoad : ExtOutcome (List ℚ))
    (infer : List ℚ → ExtOutcome (List ℚ)) :
    ((infa_deepfake librosaLoad infer).1 = 0 ∨ (infa_deepfake librosaLoad infer).1 = 1) ∧
      (∀ e, librosaLoad = ExtOutcome.raise e → (infa_deepfake librosaLoad infer).1 = 0) ∧
      (∀ sample e, librosaLoad = ExtOutcome.ok sample →
        infer sample = ExtOutcome.raise e → (infa_deepfake librosaLoad infer).1 = 0) ∧
      ∀ (modelLoaded writeOk : Bool) (g : Rng) (m : String),
        deepfake_file modelLoaded writeOk (some (0, m)) g = get_quick_response g := by
  refine ⟨?_, ?_, ?_, ?_⟩
  · cases librosaLoad with
    | raise e => simp [infa_deepfake, load_wav_16k_mono]
    | ok sample =>
      simp only [infa_deepfake, load_wav_16k_mono]
      cases hinf : infer sample with
      | raise e => simp [hinf]
      | ok predictions =>
        cases predictions with
        | nil => simp [hinf]
        | cons p ps =>
          cases hidx : myClasses[tfArgmax (p :: ps)]? with
          | none => simp [hinf, hidx]
          | some lbl => simp [hinf, hidx]
  · intro e he
    subst he
    simp [infa_deepfake, load_wav_16k_mono]
  · intro sample e h1 h2
    subst h1
    simp [infa_deepfake, load_wav_16k_mono, h2]
  · intro modelLoaded writeOk g m
    cases modelLoaded with
    | false => simp [deepfake_file]
    | true => cases writeOk <;> simp [deepfake_file]

theorem infa_deepfake_total_witness :
    (infa_deepfake (ExtOutcome.raise "load_wav_16k_mono")
        (fun _ => ExtOutcome.ok [0, 1])).1 = 0 ∧
      deepfake_file true true (some (0, "some internal error")) rng0 =
        get_quick_response rng0 :=
  ⟨(infa_deepfake_total (ExtOutcome.raise "load_wav_16k_mono")
      (fun _ => ExtOutcome.ok [0, 1])).2.1 "load_wav_16k_mono" rfl,
    (infa_deepfake_total (ExtOutcome.raise "load_wav_16k_mono")
      (fun _ => ExtOutcome.ok [0, 1])).2.2.2 true true rng0 "some internal error"⟩

end DeepfakeApp
